import Mathlib

/-!
Shallow embedding of the Butler voice assistant dialog/session engine.

Sources embedded here:
* `src/src/real_conversation_engine.py` — `RealConversationEngine`
  (`booking_flows`, `process_real_query`, `start_booking_flow`,
  `continue_booking_flow`, `complete_booking`, the prompt generators and
  the keyword handlers).
* `src/src/main.py` — `EnhancedProductionButler`
  (`start_enhanced_production_mode` loop body, `_should_sleep`,
  `_reset_conversation_state`, `process_real_time_conversation`,
  `start_service_booking`).
* `src/src/voice/voice_engine.py` — wake word detection
  (`wait_for_wake_word` lowercases the transcription and tests the
  substring "butler").

Conventions of the embedding:
* Python dicts keyed by strings become association lists with
  `lookup`/`set`/`erase` helpers.
* `random.choice(xs)` becomes `choose xs k` for an externally supplied
  index `k : Nat`; every theorem quantifies over `k`, so nothing proved
  depends on which template the random generator picks.
* Timestamps (`time.time()`) become `Nat`; the timeout comparison
  `now - last > 300` is taken verbatim (with truncated subtraction, which
  agrees with the Python float comparison whenever `last ≤ now`, the only
  situation a monotone clock produces).
* `await`ed collaborator calls that can raise are modelled with `Except`:
  the Booking Executor parameter returns `Except String String`
  (`error` = a raised exception), and the intelligent conversation router
  (whose classifier and handlers live behind `intelligent_conversation_router`)
  is an oracle returning either a response or a raised exception together
  with the engine flow table at the moment of the raise.
* The single user of the production loop is `self.current_user_id`,
  the constant `"default"`.
-/

deriving instance DecidableEq for Except

namespace Butler

/-- Python `text.lower()`. Defined over the character list (rather than
through `String.map`, whose well-founded recursion the kernel cannot
evaluate) so that concrete traces reduce by `decide`. -/
def lowerStr (s : String) : String :=
  String.mk (s.data.map Char.toLower)

/-- Python `needle in hay` on strings: substring test. -/
def strContains (hay needle : String) : Bool :=
  hay.toList.tails.any (fun t => needle.toList.isPrefixOf t)

/-- Python `any(word in text for word in words)`. -/
def anyKeyword (text : String) (words : List String) : Bool :=
  words.any (fun w => strContains text w)

/-- `random.choice(xs)` modelled by an externally supplied index `k`. -/
def choose (xs : List String) (k : Nat) : String :=
  xs.getD (k % xs.length) ""

/-- The four values taken by `flow['step']` in
`RealConversationEngine.continue_booking_flow`. -/
inductive FlowStep where
  | problem_details
  | timing
  | location
  | confirmation
  deriving DecidableEq, Repr

/-- One entry of `RealConversationEngine.booking_flows`: the dict
`{'service_type': ..., 'step': ..., 'data': {...}}` built by
`start_booking_flow`. -/
structure BookingFlow where
  service_type : String
  step : FlowStep
  data : List (String × String)
  deriving DecidableEq, Repr

/-- `RealConversationEngine.booking_flows`: dict user id → flow. -/
abbrev EngineFlows := List (String × BookingFlow)

/-- Dict lookup `booking_flows[user_id]` / `user_id in booking_flows`. -/
def lookupFlow (flows : EngineFlows) (uid : String) : Option BookingFlow :=
  match flows with
  | [] => none
  | (u, f) :: rest => if u = uid then some f else lookupFlow rest uid

/-- Dict deletion `del booking_flows[user_id]`. -/
def eraseFlow (flows : EngineFlows) (uid : String) : EngineFlows :=
  match flows with
  | [] => []
  | (u, f) :: rest =>
    if u = uid then eraseFlow rest uid else (u, f) :: eraseFlow rest uid

/-- Dict assignment `booking_flows[user_id] = flow`. -/
def setFlow (flows : EngineFlows) (uid : String) (f : BookingFlow) : EngineFlows :=
  match flows with
  | [] => [(uid, f)]
  | (u, g) :: rest =>
    if u = uid then (u, f) :: rest else (u, g) :: setFlow rest uid f

/-- Dict lookup `data.get(name, default)` without the default. -/
def lookupSlot (data : List (String × String)) (name : String) : Option String :=
  match data with
  | [] => none
  | (n, v) :: rest => if n = name then some v else lookupSlot rest name

/-- Dict assignment `flow['data'][name] = value`. -/
def setSlot (data : List (String × String)) (name value : String) :
    List (String × String) :=
  match data with
  | [] => [(name, value)]
  | (n, v) :: rest =>
    if n = name then (n, value) :: rest else (n, v) :: setSlot rest name value

/-- `RealConversationEngine.get_timing_question`. -/
def getTimingQuestion (service_type : String) (k : Nat) : String :=
  choose
    [s!"When would you like the {service_type} service? You can say 'today', 'tomorrow', or specify a time.",
     s!"What's your preferred timing for the {service_type}?",
     s!"When should I schedule the {service_type} service?"] k

/-- `RealConversationEngine.get_location_question`. -/
def getLocationQuestion (k : Nat) : String :=
  choose
    ["What's your address or location? I'll find professionals in your area.",
     "Could you share your location? This helps me find service providers near you.",
     "What area are you in? I need this to locate the best professionals for you."] k

/-- `RealConversationEngine.get_booking_confirmation`. The `data` dict never
receives a `service_type` key in `continue_booking_flow`, so the `.get`
default `'service'` is what the summary actually shows. -/
def getBookingConfirmation (data : List (String × String)) : String :=
  let service_type := (lookupSlot data "service_type").getD "service"
  let problem := (lookupSlot data "problem").getD "the issue"
  let timing := (lookupSlot data "timing").getD "your preferred time"
  let location := (lookupSlot data "location").getD "your location"
  s!"Let me confirm your booking:\nâ€¢ Service: {service_type}\nâ€¢ Issue: {problem}\nâ€¢ Timing: {timing}\nâ€¢ Location: {location}\n\nShould I proceed with booking and find available professionals?"

/-- The text produced by `RealConversationEngine.complete_booking` (the
in-repo Booking Executor). It has no failure branch: it always returns one
of three success templates. -/
def completeBookingMsg (data : List (String × String)) (k : Nat) : String :=
  let service_type := (lookupSlot data "service_type").getD "service"
  choose
    [s!"ðŸŽ‰ Booking confirmed! I've scheduled your {service_type} service. Professionals in your area have been notified and you'll receive confirmation calls shortly.",
     s!"âœ… Great! Your {service_type} service is booked. I'm connecting you with available professionals and you should hear from them within 30 minutes.",
     s!"ðŸ“… Booking completed! Your {service_type} service is scheduled. You'll receive service confirmation and professional details shortly."] k

/-- `RealConversationEngine.complete_booking` as a Booking Executor value:
it never raises, so it is always `Except.ok`. -/
def completeBooking (k : Nat) (data : List (String × String)) :
    Except String String :=
  .ok (completeBookingMsg data k)

/-- `RealConversationEngine.handle_plumbing_request`. -/
def handlePlumbingRequest (k : Nat) : String :=
  choose
    ["I'll help you find a reliable plumber! First, tell me about the plumbing issue - is it a leak, clogged drain, running toilet, or something else?",
     "Plumbing issues need the right specialist. Could you describe the problem? This helps me match you with the perfect plumber.",
     "Let me connect you with expert plumbers! What specific plumbing problem are you dealing with?"] k

/-- `RealConversationEngine.handle_electrical_request`. -/
def handleElectricalRequest (k : Nat) : String :=
  choose
    ["Safety first with electrical work! I'll find you certified electricians. What's the electrical issue - wiring, outlets, lighting, or appliances?",
     "Electrical problems need expert attention. Tell me what's happening so I can find the right electrician for your needs.",
     "I'll connect you with qualified electricians! What specific electrical work do you need done?"] k

/-- `RealConversationEngine.handle_cleaning_request`. -/
def handleCleaningRequest (k : Nat) : String :=
  choose
    ["I can book professional cleaning services! What type of cleaning do you need - regular home cleaning, deep cleaning, move-in/out, or office cleaning?",
     "Let me find you trusted cleaners! What areas need cleaning and how many rooms?",
     "I'll connect you with professional cleaning services! What's the scope of cleaning needed?"] k

/-- `RealConversationEngine.handle_carpenter_request`. -/
def handleCarpenterRequest (k : Nat) : String :=
  choose
    ["I can find skilled carpenters for your project! What type of work - furniture repair, custom furniture, installations, or repairs?",
     "Let me connect you with professional carpenters! What specific woodwork do you need?",
     "I'll help you find reliable carpenters! What's your carpentry project about?"] k

/-- `RealConversationEngine.handle_ac_repair_request`. -/
def handleAcRepairRequest (k : Nat) : String :=
  choose
    ["AC issues can be uncomfortable! I'll find you expert technicians. What's the problem - not cooling, strange noises, water leakage, or not turning on?",
     "Let me connect you with AC repair specialists! What specific issue is your air conditioner having?",
     "I'll find you reliable AC technicians! What's happening with your AC unit?"] k

/-- `RealConversationEngine.handle_emergency_request`. -/
def handleEmergencyRequest (k : Nat) : String :=
  choose
    ["ðŸš¨ Emergency situation! I'm prioritizing your request. What's the emergency and your location? I'll find immediate help.",
     "ðŸš¨ Urgent assistance activated! Please describe the emergency and your location so I can get you help right away.",
     "ðŸš¨ Emergency mode! Tell me what's happening and where you are. I'm finding the nearest available professionals."] k

/-- `RealConversationEngine.handle_payment_discussion`. -/
def handlePaymentDiscussion (k : Nat) : String :=
  choose
    ["I handle payments securely through multiple options. Most services require advance payment confirmation. The exact cost depends on the service details.",
     "Payments are processed securely. Costs vary by service type and requirements. I'll provide exact pricing once we select a service professional.",
     "I facilitate secure payments for all bookings. We accept UPI, cards, and net banking. The final amount will be confirmed before booking."] k

/-- `RealConversationEngine.handle_recommendation`. -/
def handleRecommendation (k : Nat) : String :=
  choose
    ["I'd be happy to recommend the best service providers based on ratings and reviews. What type of service are you looking for?",
     "Let me suggest reliable professionals! I consider ratings, experience, and customer feedback. What service do you need?",
     "I can recommend trusted service providers! What are you looking to get done? I'll find the best options for you."] k

/-- `RealConversationEngine.handle_greeting`. -/
def handleGreeting (k : Nat) : String :=
  choose
    ["Hello! I'm Butler, your real-time service assistant. I can help you book plumbers, electricians, cleaners, carpenters, and more. What do you need today?",
     "Hi there! I'm Butler, ready to help you book reliable service professionals in real-time. What can I assist you with?",
     "Hello! I'm Butler - your personal service booking assistant. I'm here to help you find and book trusted professionals instantly. What do you need?"] k

/-- `RealConversationEngine.handle_thanks`. -/
def handleThanks (k : Nat) : String :=
  choose
    ["You're welcome! I'm here whenever you need service assistance. Is there anything else I can help with?",
     "Happy to help! Remember, I'm here 24/7 for your service needs. What else can I do for you?",
     "You're welcome! Don't hesitate to ask if you need more help with services. What's next?"] k

/-- `RealConversationEngine.handle_capabilities` (a single fixed string). -/
def handleCapabilities : String :=
  "I'm Butler, your real-time service assistant! Here's what I can do:\nâ€¢ Book plumbers, electricians, cleaners, carpenters, AC repair\nâ€¢ Handle emergency service requests immediately\nâ€¢ Provide cost estimates and payment processing\nâ€¢ Find the best professionals based on ratings\nâ€¢ Schedule appointments in real-time\n\nWhat service would you like to book today?"

/-- `RealConversationEngine.handle_general_query`. -/
def handleGeneralQuery (k : Nat) : String :=
  choose
    ["I specialize in booking service professionals in real-time. I can help with plumbing, electrical work, cleaning, carpentry, AC repair, and more. What service do you need?",
     "As your service booking assistant, I can connect you with trusted professionals instantly. What type of service are you looking for?",
     "I'm here to help you book reliable service professionals. I handle everything from finding providers to scheduling and payments. What can I book for you today?"] k

/-- `RealConversationEngine.start_booking_flow`: installs a fresh flow at
step `problem_details` with empty data. -/
def startBookingFlow (flows : EngineFlows) (uid service_type : String) :
    EngineFlows :=
  setFlow flows uid
    { service_type := service_type, step := .problem_details, data := [] }

/-- The response of `continue_booking_flow` when `user_id` is missing from
`booking_flows` (the guard at its top). -/
def notInFlowMsg : String :=
  "I'm ready to help you with services. What do you need?"

/-- The cancellation response of the `confirmation` branch of
`continue_booking_flow`. -/
def cancelMsg : String :=
  "No problem! Let me know if you'd like to book another service."

/-- `RealConversationEngine.continue_booking_flow`, parametric in the
Booking Executor `exec` (`complete_booking` in the source; an `Except.error`
models the call raising). An exception of `exec` propagates out of this
function — in the source, `del self.booking_flows[user_id]` runs only after
`await self.complete_booking(...)` has returned, so on a raise the flow
table is left exactly as it was at function entry. -/
def continueBookingFlow (exec : List (String × String) → Except String String)
    (k : Nat) (flows : EngineFlows) (user_input user_id : String) :
    Except String (EngineFlows × String) :=
  match lookupFlow flows user_id with
  | none => .ok (flows, notInFlowMsg)
  | some flow =>
    match flow.step with
    | .problem_details =>
      let flow := { flow with
        data := setSlot flow.data "problem" user_input, step := .timing }
      .ok (setFlow flows user_id flow, getTimingQuestion flow.service_type k)
    | .timing =>
      let flow := { flow with
        data := setSlot flow.data "timing" user_input, step := .location }
      .ok (setFlow flows user_id flow, getLocationQuestion k)
    | .location =>
      let flow := { flow with
        data := setSlot flow.data "location" user_input, step := .confirmation }
      .ok (setFlow flows user_id flow, getBookingConfirmation flow.data)
    | .confirmation =>
      if strContains (lowerStr user_input) "yes" || strContains (lowerStr user_input) "confirm" then
        match exec flow.data with
        | .ok booking_result => .ok (eraseFlow flows user_id, booking_result)
        | .error e => .error e
      else
        .ok (eraseFlow flows user_id, cancelMsg)

/-- Whether this call of `continue_booking_flow` reaches the
`await self.complete_booking(...)` call site: the flow exists, sits at the
`confirmation` step, and the utterance contains "yes" or "confirm". This is
read off the same branch structure as `continueBookingFlow` and lets traces
count Booking Executor invocations. -/
def executorInvoked (flows : EngineFlows) (user_input user_id : String) : Bool :=
  match lookupFlow flows user_id with
  | none => false
  | some flow =>
    flow.step == FlowStep.confirmation &&
      (strContains (lowerStr user_input) "yes" || strContains (lowerStr user_input) "confirm")

/-- `RealConversationEngine.process_real_query`: flow continuation when the
user is mid-flow, otherwise the keyword dispatch (the keyword branches both
start a booking flow and return the matching handler text). -/
def processRealQuery (exec : List (String × String) → Except String String)
    (k : Nat) (flows : EngineFlows) (user_input user_id : String) :
    Except String (EngineFlows × String) :=
  let lower := (lowerStr user_input)
  if (lookupFlow flows user_id).isSome then
    continueBookingFlow exec k flows user_input user_id
  else if anyKeyword lower ["plumber", "plumbing", "leak", "pipe", "drain"] then
    .ok (startBookingFlow flows user_id "plumber", handlePlumbingRequest k)
  else if anyKeyword lower ["electrician", "electrical", "electric", "wiring", "fuse", "power"] then
    .ok (startBookingFlow flows user_id "electrician", handleElectricalRequest k)
  else if anyKeyword lower ["clean", "cleaning", "cleaner", "maid", "housekeeping"] then
    .ok (startBookingFlow flows user_id "cleaner", handleCleaningRequest k)
  else if anyKeyword lower ["carpenter", "furniture", "woodwork", "cabinet", "repair"] then
    .ok (startBookingFlow flows user_id "carpenter", handleCarpenterRequest k)
  else if anyKeyword lower ["ac", "air conditioner", "cooling", "ac repair"] then
    .ok (startBookingFlow flows user_id "ac_repair", handleAcRepairRequest k)
  else if anyKeyword lower ["book", "appointment", "schedule"] then
    .ok (flows, "I'd be happy to help you book a service! What type of service do you need? You can say plumber, electrician, cleaner, carpenter, or AC repair.")
  else if anyKeyword lower ["emergency", "urgent", "help now", "immediately"] then
    .ok (flows, handleEmergencyRequest k)
  else if anyKeyword lower ["price", "cost", "how much", "payment"] then
    .ok (flows, handlePaymentDiscussion k)
  else if anyKeyword lower ["recommend", "suggest", "best", "good"] then
    .ok (flows, handleRecommendation k)
  else if anyKeyword lower ["hello", "hi", "hey", "good morning"] then
    .ok (flows, handleGreeting k)
  else if anyKeyword lower ["thank", "thanks", "thank you"] then
    .ok (flows, handleThanks k)
  else if anyKeyword lower ["what can you do", "help", "services"] then
    .ok (flows, handleCapabilities)
  else
    .ok (flows, handleGeneralQuery k)

/-- `EnhancedProductionButler.start_service_booking` (main.py): start the
flow in the conversation engine, then feed the same utterance through
`process_real_query` — which, the user now being mid-flow, consumes it as
the first slot. -/
def startServiceBooking (exec : List (String × String) → Except String String)
    (k : Nat) (user_text service_type : String) (flows : EngineFlows) :
    Except String (EngineFlows × String) :=
  processRealQuery exec k (startBookingFlow flows "default" service_type)
    user_text "default"

/-- The per-session mutable state of `EnhancedProductionButler` touched by
the production loop, together with the engine flow table and the response
generator history it resets. `history` is `self.conversation_history`
(entries `{"user": text, "butler": "response_given"}`, kept as the pair);
`hrgHistory` is `HumanResponseGenerator.conversation_history["default"]`,
which `_reset_conversation_state` clears. -/
structure MainState where
  is_awake : Bool
  last_interaction_time : Option Nat
  flows : EngineFlows
  active_booking : Option String
  booking_data : List (String × String)
  history : List (String × String)
  hrgHistory : List (String × String)
  deriving DecidableEq, Repr

/-- `self.session_timeout = 300`. -/
def sessionTimeout : Nat := 300

/-- `EnhancedProductionButler._should_sleep`. -/
def shouldSleep (s : MainState) (now : Nat) : Bool :=
  match s.last_interaction_time with
  | none => false
  | some t => now - t > sessionTimeout

/-- `EnhancedProductionButler._reset_conversation_state`: clears
`active_booking`, `booking_data`, and the response generator history of the
current user. It does NOT touch `real_conversation_engine.booking_flows`. -/
def resetConversationState (s : MainState) : MainState :=
  { s with active_booking := none, booking_data := [], hrgHistory := [] }

/-- The outcome of `intelligent_conversation_router` viewed from
`process_real_time_conversation`: either it returns normally having spoken
`response` (with the engine flow table as mutated), or somewhere inside it
an exception was raised (`raised`), carrying the flow table at the moment
of the raise. The router is kept as an oracle parameter: its classifier
call `self.real_conversation_engine.extract_service_type` names a method
that `RealConversationEngine` does not define, so in the source file every
router call raises `AttributeError`; the intended behaviors are recovered
by instantiating the oracle with in-repo pieces such as
`startServiceBooking`. -/
inductive RouterOutcome where
  | ok (flows : EngineFlows) (response : String)
  | raised (flows : EngineFlows) (msg : String)
  deriving DecidableEq, Repr

/-- The fallback spoken by the `except` clause of
`process_real_time_conversation`. -/
def fallbackText : String :=
  "I'm having trouble processing that. Let me try again. What service do you need?"

/-- The history append and trim of `process_real_time_conversation`:
append the exchange, then `if len > 10: keep the last 10`. -/
def appendHistory (history : List (String × String)) (user_text : String) :
    List (String × String) :=
  let h := history ++ [(user_text, "response_given")]
  if h.length > 10 then h.drop (h.length - 10) else h

/-- `EnhancedProductionButler.process_real_time_conversation`, parametric in
the router oracle and the Booking Executor. If `"default"` is mid-flow the
utterance goes to `process_real_query` (hence `continue_booking_flow`),
otherwise to `intelligent_conversation_router`. On either path the exchange
is appended to `conversation_history` (trimmed to 10) after the response;
an exception from either path is caught by the `except` clause, which
speaks `fallbackText` — the history append is skipped because it sits after
the raise point inside the `try` block. -/
def processRealTimeConversation (router : String → EngineFlows → RouterOutcome)
    (exec : List (String × String) → Except String String) (k : Nat)
    (s : MainState) (user_text : String) : MainState × String :=
  if (lookupFlow s.flows "default").isSome then
    match processRealQuery exec k s.flows user_text "default" with
    | .ok (flows, response) =>
      ({ s with flows := flows, history := appendHistory s.history user_text },
       response)
    | .error _ => (s, fallbackText)
  else
    match router user_text s.flows with
    | .ok flows response =>
      ({ s with flows := flows, history := appendHistory s.history user_text },
       response)
    | .raised flows _ => ({ s with flows := flows }, fallbackText)

/-- Spoken when the inactivity timeout fires (main loop, timeout branch). -/
def sleepNotice : String :=
  "I haven't heard from you in a while. I'm going to sleep now. Just say 'Butler' when you need me again!"

/-- Spoken after wake word detection (main loop, asleep branch). -/
def wakeAck : String :=
  "Yes, I'm here! How can I help you today?"

/-- Spoken by the sleep/exit command branch of the main loop. -/
def farewellText : String :=
  "Going to sleep now. Say 'Butler' whenever you need assistance!"

/-- Spoken when the wake word arrives while already awake. -/
def listeningAck : String :=
  "Yes, I'm listening! What can I help you with?"

/-- The opening line of `handle_feedback_request`; the rest of that
interaction talks to the feedback manager, outside the state modelled
here. -/
def feedbackPrompt : String :=
  "I'd love to hear your feedback! On a scale of 1 to 5, how would you rate your experience with Butler?"

/-- Wake word detection of `VoiceEngine.wait_for_wake_word`: the
transcription is lowercased and tested for the substring `"butler"`
(`self.wake_word`, the default of `Config.WAKE_WORD`). -/
def wakeDetected (text : String) : Bool :=
  strContains (lowerStr text) "butler"

/-- The sleep/exit command list of the main loop (a substring test against
the lowercased utterance). -/
def exitWords : List String := ["sleep", "goodbye", "bye", "exit", "stop"]

/-- One iteration of the `while self.is_running` loop of
`start_enhanced_production_mode`, at time `now`, with `heard` the text the
microphone produced this iteration (the transcription attempt while asleep,
or the `listen_command` result — possibly `""` — while awake). Returns the
new state and the texts spoken this iteration, in order. Structure,
following the source line by line: first the timeout check (sleep plus
`_reset_conversation_state` if a session is stale while awake), then the
asleep branch (wake word detection only) or the awake branch (exit
commands, wake word, feedback, then `process_real_time_conversation`). -/
def loopStep (router : String → EngineFlows → RouterOutcome)
    (exec : List (String × String) → Except String String) (k : Nat)
    (now : Nat) (heard : String) (s : MainState) : MainState × List String :=
  let timedOut := shouldSleep s now && s.is_awake
  let s1 := if timedOut then { resetConversationState s with is_awake := false } else s
  let out1 : List String := if timedOut then [sleepNotice] else []
  if !s1.is_awake then
    if wakeDetected heard then
      ({ s1 with is_awake := true, last_interaction_time := some now },
       out1 ++ [wakeAck])
    else
      (s1, out1)
  else
    if heard = "" then
      (s1, out1)
    else
      let s2 := { s1 with last_interaction_time := some now }
      let lower := (lowerStr heard)
      if anyKeyword lower exitWords then
        ({ resetConversationState s2 with is_awake := false },
         out1 ++ [farewellText])
      else if strContains lower "butler" then
        ({ s2 with last_interaction_time := some now }, out1 ++ [listeningAck])
      else if strContains lower "feedback" then
        (s2, out1 ++ [feedbackPrompt])
      else
        let (s3, response) := processRealTimeConversation router exec k s2 heard
        (s3, out1 ++ [response])

/-! ### View functions and trace drivers used to state the claims -/

/-- The slot name each collection step writes
(`flow['data']['problem' | 'timing' | 'location']`); the confirmation
branch writes no slot, recorded here as `""`. -/
def slotName : FlowStep → String
  | .problem_details => "problem"
  | .timing => "timing"
  | .location => "location"
  | .confirmation => ""

/-- The successor of each step in `continue_booking_flow`
(`confirmation` is terminal: the flow is deleted, never advanced). -/
def nextStep : FlowStep → FlowStep
  | .problem_details => .timing
  | .timing => .location
  | .location => .confirmation
  | .confirmation => .confirmation

/-- The 0-based index of a step, for stating step-counter claims. -/
def stepIndex : FlowStep → Nat
  | .problem_details => 0
  | .timing => 1
  | .location => 2
  | .confirmation => 3

/-- The prompt `continue_booking_flow` returns after a collection step
consumes `t` (read off the three non-terminal branches). -/
def collectPrompt (fl : BookingFlow) (t : String) (k : Nat) : String :=
  match fl.step with
  | .problem_details => getTimingQuestion fl.service_type k
  | .timing => getLocationQuestion k
  | .location => getBookingConfirmation (setSlot fl.data "location" t)
  | .confirmation => ""

/-- The last `n` entries of a list, python `l[-n:]`. -/
def lastN (n : Nat) (l : List (String × String)) : List (String × String) :=
  l.drop (l.length - n)

/-- Trace driver: feed a list of utterances through
`continue_booking_flow` one by one, returning the final flow table and the
number of inputs that reached the `await self.complete_booking(...)` call
site (counted with `executorInvoked`). -/
def runBookingInputs (exec : List (String × String) → Except String String)
    (k : Nat) : EngineFlows → String → List String →
    Except String (EngineFlows × Nat)
  | flows, _, [] => .ok (flows, 0)
  | flows, uid, t :: ts =>
    let inv : Nat := if executorInvoked flows t uid then 1 else 0
    match continueBookingFlow exec k flows t uid with
    | .ok (flows2, _) =>
      match runBookingInputs exec k flows2 uid ts with
      | .ok (flows3, n) => .ok (flows3, inv + n)
      | .error e => .error e
    | .error e => .error e

/-- A router oracle that touches nothing: returns normally with an empty
response and the flow table unchanged. -/
def nullRouter : String → EngineFlows → RouterOutcome :=
  fun _ flows => .ok flows ""

/-- The router outcome on the service-detection path of
`intelligent_conversation_router`: the utterance was classified as
`service_type`, so `start_service_booking` runs (main.py lines 251-260). -/
def serviceRouter (service_type : String) :
    String → EngineFlows → RouterOutcome :=
  fun t flows =>
    match startServiceBooking (completeBooking 0) 0 t service_type flows with
    | .ok (flows2, r) => .ok flows2 r
    | .error e => .raised flows e

/-- The state at the top of `start_enhanced_production_mode`:
asleep would be `is_awake = False` from `__init__`;
`last_interaction_time` is set to the clock as the loop starts. -/
def initialState : MainState :=
  { is_awake := false, last_interaction_time := some 0, flows := [],
    active_booking := none, booking_data := [], history := [],
    hrgHistory := [] }

/-- Concrete trace for claim C1: wake at t=1, ask for a plumber at t=2
(the router starts the booking flow and the same utterance fills the
`problem` slot), then an utterance at t=1000 — past the 300s timeout. -/
def c1Trace : MainState :=
  (loopStep (serviceRouter "plumber") (completeBooking 0) 0 1000 "tomorrow"
    ((loopStep (serviceRouter "plumber") (completeBooking 0) 0 2
      "i need a plumber"
      ((loopStep (serviceRouter "plumber") (completeBooking 0) 0 1 "butler"
        initialState).1)).1)).1

/-- Concrete state for claim C2: awake, mid-flow at the `timing` step,
last activity at t=0. -/
def c2Start : MainState :=
  { is_awake := true, last_interaction_time := some 0,
    flows := [("default",
      { service_type := "plumber", step := .timing,
        data := [("problem", "leaky pipe")] })],
    active_booking := none, booking_data := [], history := [],
    hrgHistory := [] }

/-- Concrete state for claim C3: awake, mid-flow at the first step. -/
def c3Start : MainState :=
  { is_awake := true, last_interaction_time := some 0,
    flows := [("default",
      { service_type := "plumber", step := .problem_details, data := [] })],
    active_booking := none, booking_data := [], history := [],
    hrgHistory := [] }

/-- A freshly started flow table for claim C4. -/
def c4StartFlows : EngineFlows :=
  [("default",
    { service_type := "plumber", step := .problem_details, data := [] })]

/-- A flow table at the confirmation step for claim C5. -/
def c5Flows : EngineFlows :=
  [("default",
    { service_type := "plumber", step := .confirmation,
      data := [("problem", "leak"), ("timing", "today"),
               ("location", "downtown")] })]

/-- Concrete state for claim C6: awake, mid-flow at confirmation. -/
def c6Start : MainState :=
  { is_awake := true, last_interaction_time := some 0,
    flows := [("default",
      { service_type := "cleaner", step := .confirmation,
        data := [("problem", "dusty"), ("timing", "today"),
                 ("location", "downtown")] })],
    active_booking := none, booking_data := [], history := [],
    hrgHistory := [] }

/-- Awake state with empty history for claim C7. -/
def c7Start : MainState :=
  { is_awake := true, last_interaction_time := some 0, flows := [],
    active_booking := none, booking_data := [], history := [],
    hrgHistory := [] }

/-- Six exchanges through `process_real_time_conversation` (router replies
normally each time). -/
def c7Run : MainState :=
  (["one", "two", "three", "four", "five", "six"].foldl
    (fun st t =>
      (processRealTimeConversation nullRouter (completeBooking 0) 0 st t).1)
    c7Start)

/-- Concrete asleep state for the C8 witness. -/
def c8Start : MainState :=
  { is_awake := false, last_interaction_time := some 0, flows := [],
    active_booking := none, booking_data := [], history := [],
    hrgHistory := [] }

/-- A router oracle that raises (as the source router does on its
`extract_service_type` call) without mutating the flow table. -/
def boomRouter : String → EngineFlows → RouterOutcome :=
  fun _ flows => .raised flows "AttributeError"

/-! ### Helper lemmas -/

/-- The append-and-trim of `process_real_time_conversation` always equals
keeping the last 10 entries of the appended history. -/
theorem appendHistory_eq_lastN (hist : List (String × String)) (u : String) :
    appendHistory hist u = lastN 10 (hist ++ [(u, "response_given")]) := by
  unfold appendHistory lastN
  by_cases hl : (hist ++ [(u, "response_given")]).length > 10
  · rw [if_pos hl]
  · have h0 : (hist ++ [(u, "response_given")]).length - 10 = 0 := by omega
    rw [if_neg hl, h0, List.drop_zero]

/-- Keeping the last 10 entries yields at most 10 entries. -/
theorem lastN_ten_length_le (l : List (String × String)) :
    (lastN 10 l).length ≤ 10 := by
  simp [lastN]
  omega

/-! ### Claims -/

/-- C1: the spec invariant "`active_flow` implies `awake == true`" fails on
the code. Along a concrete reachable trace — wake at t=1, "i need a
plumber" at t=2 (the router starts a plumber flow and the utterance fills
its `problem` slot), then any utterance at t=1000, past the 300s timeout —
the loop forces `is_awake = False` and calls `_reset_conversation_state`,
but that reset clears only `active_booking`, `booking_data` and the
response generator history, never `real_conversation_engine.booking_flows`:
the session ends asleep with the booking flow still present. -/
theorem c1_flow_survives_forced_sleep :
    c1Trace.is_awake = false ∧
      lookupFlow c1Trace.flows "default" =
        some { service_type := "plumber", step := .timing,
               data := [("problem", "i need a plumber")] } := by
  decide

/-- C2: on a stale mid-flow session (last activity t=0, next utterance at
t=301 > SESSION_TIMEOUT=300), the loop sets `awake` to false before the
utterance is processed, but the active flow does NOT become absent:
`_reset_conversation_state` leaves `booking_flows` untouched, so the
`timing`-step flow survives intact. -/
theorem c2_timeout_sleeps_but_keeps_flow :
    (loopStep nullRouter (completeBooking 0) 0 301 "tomorrow" c2Start).1.is_awake
        = false ∧
      lookupFlow
        (loopStep nullRouter (completeBooking 0) 0 301 "tomorrow" c2Start).1.flows
        "default" =
        some { service_type := "plumber", step := .timing,
               data := [("problem", "leaky pipe")] } := by
  decide

/-- C3 counterexample: the claim lists "quit" among the exit phrases, but
the source exit list is `['sleep', 'goodbye', 'bye', 'exit', 'stop']` —
no "quit". Mid-flow, the utterance "quit" is not treated as an exit at all:
the session stays awake, the flow advances one step consuming "quit"
verbatim as the `problem` slot, and the reply is a timing question, not the
farewell. -/
theorem c3_counterexample_quit_advances_flow :
    (loopStep nullRouter (completeBooking 0) 0 1 "quit" c3Start).1.is_awake
        = true ∧
      lookupFlow
        (loopStep nullRouter (completeBooking 0) 0 1 "quit" c3Start).1.flows
        "default" =
        some { service_type := "plumber", step := .timing,
               data := [("problem", "quit")] } ∧
      (loopStep nullRouter (completeBooking 0) 0 1 "quit" c3Start).2 ≠
        [farewellText] := by
  decide

/-- C3 amended: the exit phrases are "sleep", "goodbye", "bye", "exit",
"stop" (no "quit"), matched as case-insensitive substrings (not whole
words). On a non-stale awake session, an utterance matching one of them
returns the farewell and puts the session to sleep before any flow
continuation — the flow table is left exactly unchanged (so the step index
does not advance and the Booking Executor is not invoked), but the active
flow is NOT cleared: `_reset_conversation_state` drops only
`active_booking`, `booking_data` and the response generator history. -/
theorem c3_amended_exit_sleeps_without_clearing_flow
    (router : String → EngineFlows → RouterOutcome)
    (exec : List (String × String) → Except String String) (k now : Nat)
    (heard : String) (s : MainState)
    (hAwake : s.is_awake = true) (hFresh : shouldSleep s now = false)
    (hExit : anyKeyword (lowerStr heard) exitWords = true) :
    loopStep router exec k now heard s =
      ({ s with is_awake := false, last_interaction_time := some now,
                active_booking := none, booking_data := [],
                hrgHistory := [] },
       [farewellText]) := by
  have hne : heard ≠ "" := by
    intro h0
    rw [h0] at hExit
    exact absurd hExit (by decide)
  simp [loopStep, hAwake, hFresh, hExit, hne, resetConversationState]

/-- C3 amended, witness: the exit word "stop" on the awake mid-flow state
`c2Start` at t=5. -/
theorem c3_amended_witness :
    loopStep nullRouter (completeBooking 0) 0 5 "stop" c2Start =
      ({ c2Start with is_awake := false, last_interaction_time := some 5,
                      active_booking := none, booking_data := [],
                      hrgHistory := [] },
       [farewellText]) :=
  c3_amended_exit_sleeps_without_clearing_flow nullRouter (completeBooking 0)
    0 5 "stop" c2Start (by decide) (by decide) (by decide)

/-- C8: while asleep, an utterance containing the wake token "butler"
(case-insensitive substring, per `VoiceEngine.wait_for_wake_word`) wakes
the session, refreshes `last_interaction_time`, and returns the fixed
non-empty acknowledgement — and nothing else: the flow table (and all
other state) is unchanged, so no flow starts this turn even if the
utterance also contains a service keyword. -/
theorem c8_wake_word_only_wakes
    (router : String → EngineFlows → RouterOutcome)
    (exec : List (String × String) → Except String String) (k now : Nat)
    (heard : String) (s : MainState)
    (hAsleep : s.is_awake = false) (hWake : wakeDetected heard = true) :
    loopStep router exec k now heard s =
      ({ s with is_awake := true, last_interaction_time := some now },
       [wakeAck]) ∧
      wakeAck ≠ "" := by
  refine ⟨?_, by decide⟩
  simp [loopStep, hAsleep, hWake]

/-- C8 witness: "Butler plumber" on the asleep state wakes only — the flow
table stays empty despite the service keyword. -/
theorem c8_wake_word_only_wakes_witness :
    loopStep nullRouter (completeBooking 0) 0 7 "Butler plumber" c8Start =
      ({ c8Start with is_awake := true, last_interaction_time := some 7 },
       [wakeAck]) ∧
      wakeAck ≠ "" :=
  c8_wake_word_only_wakes nullRouter (completeBooking 0) 0 7 "Butler plumber"
    c8Start (by decide) (by decide)

/-- C10: at the confirmation step the flow is removed from `booking_flows`
in both branches: if the utterance contains "yes" or "confirm"
(case-insensitive substring) the in-repo Booking Executor
(`complete_booking`) runs and its text is returned; any other utterance
cancels with the fixed cancellation message. The flow never survives the
confirmation step. -/
theorem c10_confirmation_always_consumes_flow
    (flows : EngineFlows) (fl : BookingFlow) (t : String) (k j : Nat)
    (h1 : lookupFlow flows "default" = some fl)
    (h2 : fl.step = .confirmation) :
    continueBookingFlow (completeBooking j) k flows t "default" =
      .ok (eraseFlow flows "default",
        if (strContains (lowerStr t) "yes"
            || strContains (lowerStr t) "confirm") = true
        then completeBookingMsg fl.data j else cancelMsg) := by
  by_cases hc :
      (strContains (lowerStr t) "yes"
        || strContains (lowerStr t) "confirm") = true <;>
    simp [continueBookingFlow, completeBooking, h1, h2, hc]

/-- C10 witness: the confirmation flow of `c5Flows` with the utterance
"yes" completes (executor text returned) with the flow removed. -/
theorem c10_confirmation_always_consumes_flow_witness :
    continueBookingFlow (completeBooking 0) 0 c5Flows "yes" "default" =
      .ok (eraseFlow c5Flows "default",
        if (strContains (lowerStr "yes") "yes"
            || strContains (lowerStr "yes") "confirm") = true
        then completeBookingMsg
          [("problem", "leak"), ("timing", "today"), ("location", "downtown")]
          0
        else cancelMsg) :=
  c10_confirmation_always_consumes_flow c5Flows
    { service_type := "plumber", step := .confirmation,
      data := [("problem", "leak"), ("timing", "today"),
               ("location", "downtown")] }
    "yes" 0 0 (by decide) rfl

/-- C4 counterexample: four utterances whose last does not contain "yes"
or "confirm" walk the flow to the confirmation step and then CANCEL it:
the flow ends absent, but the Booking Executor is invoked zero times, not
exactly once as the claim states for any four utterances. -/
theorem c4_counterexample_plain_fourth_utterance_skips_executor :
    runBookingInputs (completeBooking 0) 0 c4StartFlows "default"
        ["leaky pipe", "tomorrow", "downtown", "no"] = .ok ([], 0) ∧
      (0 : Nat) ≠ 1 := by
  decide

/-- C4 amended: provided the fourth utterance contains "yes" or "confirm"
(case-insensitive substring), a fresh 4-step flow advances its step index
0→1→2→3 exactly once per utterance with no rewind (the intermediate flow
tables below show steps `timing`, `location`, `confirmation`), the Booking
Executor is reached exactly once — by the fourth utterance at the terminal
step — and afterwards the flow is absent. -/
theorem c4_amended_four_steps_one_executor_call
    (st t1 t2 t3 t4 : String) (k j : Nat)
    (h : strContains (lowerStr t4) "yes" = true ∨
         strContains (lowerStr t4) "confirm" = true) :
    runBookingInputs (completeBooking j) k
        [("default",
          { service_type := st, step := .problem_details, data := [] })]
        "default" [t1] =
      .ok ([("default",
        { service_type := st, step := .timing,
          data := [("problem", t1)] })], 0) ∧
    runBookingInputs (completeBooking j) k
        [("default",
          { service_type := st, step := .problem_details, data := [] })]
        "default" [t1, t2] =
      .ok ([("default",
        { service_type := st, step := .location,
          data := [("problem", t1), ("timing", t2)] })], 0) ∧
    runBookingInputs (completeBooking j) k
        [("default",
          { service_type := st, step := .problem_details, data := [] })]
        "default" [t1, t2, t3] =
      .ok ([("default",
        { service_type := st, step := .confirmation,
          data := [("problem", t1), ("timing", t2),
                   ("location", t3)] })], 0) ∧
    runBookingInputs (completeBooking j) k
        [("default",
          { service_type := st, step := .problem_details, data := [] })]
        "default" [t1, t2, t3, t4] = .ok ([], 1) := by
  have hc : (strContains (lowerStr t4) "yes"
      || strContains (lowerStr t4) "confirm") = true := by
    rcases h with h | h <;> simp [h]
  refine ⟨?_, ?_, ?_, ?_⟩ <;>
    simp [runBookingInputs, continueBookingFlow, executorInvoked, lookupFlow,
          setFlow, setSlot, eraseFlow, completeBooking, hc]

/-- C4 amended, witness: "leaky pipe" / "tomorrow" / "downtown" / "yes". -/
theorem c4_amended_four_steps_one_executor_call_witness :
    runBookingInputs (completeBooking 0) 0
        [("default",
          { service_type := "plumber", step := .problem_details, data := [] })]
        "default" ["leaky pipe"] =
      .ok ([("default",
        { service_type := "plumber", step := .timing,
          data := [("problem", "leaky pipe")] })], 0) ∧
    runBookingInputs (completeBooking 0) 0
        [("default",
          { service_type := "plumber", step := .problem_details, data := [] })]
        "default" ["leaky pipe", "tomorrow"] =
      .ok ([("default",
        { service_type := "plumber", step := .location,
          data := [("problem", "leaky pipe"), ("timing", "tomorrow")] })], 0) ∧
    runBookingInputs (completeBooking 0) 0
        [("default",
          { service_type := "plumber", step := .problem_details, data := [] })]
        "default" ["leaky pipe", "tomorrow", "downtown"] =
      .ok ([("default",
        { service_type := "plumber", step := .confirmation,
          data := [("problem", "leaky pipe"), ("timing", "tomorrow"),
                   ("location", "downtown")] })], 0) ∧
    runBookingInputs (completeBooking 0) 0
        [("default",
          { service_type := "plumber", step := .problem_details, data := [] })]
        "default" ["leaky pipe", "tomorrow", "downtown", "yes"] =
      .ok ([], 1) :=
  c4_amended_four_steps_one_executor_call "plumber" "leaky pipe" "tomorrow"
    "downtown" "yes" 0 0 (Or.inl (by decide))

/-- C5 counterexample: at the confirmation step the utterance is NOT
written into `collected_slots` — the flow is deleted with its data
untouched ("maybe" appears in no slot, the whole table becomes empty) —
and the outcome branches on the utterance content: "maybe" cancels while
"yes sure" returns the executor text, two different responses from the
same state and step index. -/
theorem c5_counterexample_confirmation_discards_input :
    continueBookingFlow (completeBooking 0) 0 c5Flows "maybe" "default" =
      .ok ([], cancelMsg) ∧
    continueBookingFlow (completeBooking 0) 0 c5Flows "yes sure" "default" =
      .ok ([], completeBookingMsg
        [("problem", "leak"), ("timing", "today"),
         ("location", "downtown")] 0) ∧
    cancelMsg ≠ completeBookingMsg
        [("problem", "leak"), ("timing", "today"),
         ("location", "downtown")] 0 := by
  decide

/-- C5 amended: at the three collection steps (`problem_details`,
`timing`, `location`) the utterance is written verbatim into
`collected_slots` under that step's slot name and the step advances by
exactly one, unconditionally in the utterance's content; only the
`confirmation` step (excluded here) writes nothing and branches on
content. -/
theorem c5_amended_collection_steps_write_verbatim
    (exec : List (String × String) → Except String String) (k : Nat)
    (flows : EngineFlows) (uid t : String) (fl : BookingFlow)
    (h1 : lookupFlow flows uid = some fl)
    (h2 : fl.step ≠ .confirmation) :
    continueBookingFlow exec k flows t uid =
      .ok (setFlow flows uid
            { fl with step := nextStep fl.step,
                      data := setSlot fl.data (slotName fl.step) t },
           collectPrompt fl t k) := by
  obtain ⟨st, step, data⟩ := fl
  cases step <;>
    simp_all [continueBookingFlow, nextStep, slotName, collectPrompt]

/-- C5 amended, witness: the utterance "pipe burst" at the first step. -/
theorem c5_amended_collection_steps_write_verbatim_witness :
    continueBookingFlow (completeBooking 0) 0 c4StartFlows "pipe burst"
        "default" =
      .ok (setFlow c4StartFlows "default"
            { service_type := "plumber",
              step := nextStep FlowStep.problem_details,
              data := setSlot [] (slotName FlowStep.problem_details)
                "pipe burst" },
           collectPrompt
             { service_type := "plumber", step := .problem_details,
               data := [] } "pipe burst" 0) :=
  c5_amended_collection_steps_write_verbatim (completeBooking 0) 0
    c4StartFlows "default" "pipe burst"
    { service_type := "plumber", step := .problem_details, data := [] }
    (by decide) (by decide)

/-- C6 counterexample: if the Booking Executor raises at the terminal step
(modelled by an executor returning `Except.error`), the active flow is NOT
cleared — deletion sits after the executor call, so the raise skips it and
the outer handler returns the fallback with the confirmation flow still in
the table, dangling. The claim says the flow is cleared on failure. -/
theorem c6_counterexample_raise_leaves_flow_dangling :
    processRealTimeConversation nullRouter (fun _ => .error "TimeoutError") 0
        c6Start "yes" = (c6Start, fallbackText) ∧
    lookupFlow
        (processRealTimeConversation nullRouter
          (fun _ => .error "TimeoutError") 0 c6Start "yes").1.flows
        "default" ≠ none := by
  decide

/-- C6 amended: the in-repo executor (`complete_booking`) cannot fail, so
only two behaviors exist at the terminal step. If the executor RETURNS a
text (success or failure wording alike), the flow is cleared — not
retried — and that text is the response. If the executor RAISES, the
conversation-level `except` catches it and answers with the generic
fallback, the session does not crash, but the flow stays in the table
(deletion follows the call), contrary to the claim's "cleared rather than
left dangling". -/
theorem c6_amended_failure_clears_only_on_return :
    (∀ (e : String) (router : String → EngineFlows → RouterOutcome)
       (k : Nat) (s : MainState) (t : String) (fl : BookingFlow),
       lookupFlow s.flows "default" = some fl → fl.step = .confirmation →
       (strContains (lowerStr t) "yes"
         || strContains (lowerStr t) "confirm") = true →
       processRealTimeConversation router (fun _ => .error e) k s t =
         (s, fallbackText)) ∧
    (∀ (msg : String) (router : String → EngineFlows → RouterOutcome)
       (k : Nat) (s : MainState) (t : String) (fl : BookingFlow),
       lookupFlow s.flows "default" = some fl → fl.step = .confirmation →
       processRealTimeConversation router (fun _ => .ok msg) k s t =
         ({ s with flows := eraseFlow s.flows "default",
                   history := appendHistory s.history t },
          if (strContains (lowerStr t) "yes"
              || strContains (lowerStr t) "confirm") = true
          then msg else cancelMsg)) := by
  constructor
  · intro e router k s t fl h1 h2 h3
    simp [processRealTimeConversation, processRealQuery, continueBookingFlow,
          h1, h2, h3]
  · intro msg router k s t fl h1 h2
    by_cases hc : (strContains (lowerStr t) "yes"
        || strContains (lowerStr t) "confirm") = true <;>
      simp [processRealTimeConversation, processRealQuery,
            continueBookingFlow, h1, h2, hc]

/-- C6 amended, witness: on `c6Start` with "yes", a raising executor keeps
the state (flow dangling) and answers the fallback, while an executor
returning a failure text clears the flow and returns that text. -/
theorem c6_amended_failure_clears_only_on_return_witness :
    processRealTimeConversation nullRouter (fun _ => .error "boom") 0 c6Start
        "yes" = (c6Start, fallbackText) ∧
    processRealTimeConversation nullRouter
        (fun _ => .ok "Sorry, the booking failed - please try again") 0
        c6Start "yes" =
      ({ c6Start with flows := eraseFlow c6Start.flows "default",
                      history := appendHistory c6Start.history "yes" },
       if (strContains (lowerStr "yes") "yes"
           || strContains (lowerStr "yes") "confirm") = true
       then "Sorry, the booking failed - please try again" else cancelMsg) :=
  ⟨c6_amended_failure_clears_only_on_return.1 "boom" nullRouter 0 c6Start
     "yes"
     { service_type := "cleaner", step := .confirmation,
       data := [("problem", "dusty"), ("timing", "today"),
                ("location", "downtown")] }
     (by decide) rfl (by decide),
   c6_amended_failure_clears_only_on_return.2
     "Sorry, the booking failed - please try again" nullRouter 0 c6Start
     "yes"
     { service_type := "cleaner", step := .confirmation,
       data := [("problem", "dusty"), ("timing", "today"),
                ("location", "downtown")] }
     (by decide) rfl⟩

/-- C7 counterexample: after six exchanges the history holds six entries —
more than the claimed capacity of 5. The cap in
`process_real_time_conversation` is 10, not `HISTORY_CAPACITY = 5`. -/
theorem c7_counterexample_six_exchanges_exceed_five :
    c7Run.history.length = 6 ∧ ¬ c7Run.history.length ≤ 5 := by
  decide

/-- C7 amended: the conversation history is capped at 10 entries (the
constant in `process_real_time_conversation`): an exchange either leaves
the history unchanged (exception path) or replaces it with the last 10
entries of the appended sequence — the most recent exchanges in
chronological order — so from any state within the cap it never exceeds
10. -/
theorem c7_amended_history_capacity_is_ten
    (router : String → EngineFlows → RouterOutcome)
    (exec : List (String × String) → Except String String) (k : Nat)
    (s : MainState) (t : String) (h : s.history.length ≤ 10) :
    ((processRealTimeConversation router exec k s t).1.history = s.history ∨
      (processRealTimeConversation router exec k s t).1.history =
        lastN 10 (s.history ++ [(t, "response_given")])) ∧
    (processRealTimeConversation router exec k s t).1.history.length ≤ 10 := by
  by_cases hf : (lookupFlow s.flows "default").isSome = true
  · cases hq : processRealQuery exec k s.flows t "default" with
    | ok p =>
      obtain ⟨f2, r⟩ := p
      refine ⟨Or.inr ?_, ?_⟩ <;>
        simp [processRealTimeConversation, hf, hq, appendHistory_eq_lastN,
              lastN_ten_length_le]
    | error e =>
      refine ⟨Or.inl ?_, ?_⟩ <;>
        simp [processRealTimeConversation, hf, hq, h]
  · cases hr : router t s.flows with
    | ok f2 r =>
      refine ⟨Or.inr ?_, ?_⟩ <;>
        simp [processRealTimeConversation, hf, hr, appendHistory_eq_lastN,
              lastN_ten_length_le]
    | raised f2 m =>
      refine ⟨Or.inl ?_, ?_⟩ <;>
        simp [processRealTimeConversation, hf, hr, h]

/-- C7 amended, witness: one exchange on the empty-history state. -/
theorem c7_amended_history_capacity_is_ten_witness :
    ((processRealTimeConversation nullRouter (completeBooking 0) 0 c7Start
        "hi").1.history = c7Start.history ∨
      (processRealTimeConversation nullRouter (completeBooking 0) 0 c7Start
        "hi").1.history =
        lastN 10 (c7Start.history ++ [("hi", "response_given")])) ∧
    (processRealTimeConversation nullRouter (completeBooking 0) 0 c7Start
        "hi").1.history.length ≤ 10 :=
  c7_amended_history_capacity_is_ten nullRouter (completeBooking 0) 0 c7Start
    "hi" (by decide)

/-- C9: no exception escapes `process_real_time_conversation`: if the
router (classifier path) raises, or the mid-flow path raises (the
executor), the `except` clause answers with the generic fallback text and
the call still yields a response — the two conjuncts cover the two
downstream paths. -/
theorem c9_downstream_exceptions_recovered :
    (∀ (router : String → EngineFlows → RouterOutcome)
       (exec : List (String × String) → Except String String) (k : Nat)
       (s : MainState) (t : String) (f : EngineFlows) (e : String),
       lookupFlow s.flows "default" = none → router t s.flows = .raised f e →
       processRealTimeConversation router exec k s t =
         ({ s with flows := f }, fallbackText)) ∧
    (∀ (router : String → EngineFlows → RouterOutcome)
       (exec : List (String × String) → Except String String) (k : Nat)
       (s : MainState) (t : String) (e : String),
       (lookupFlow s.flows "default").isSome = true →
       processRealQuery exec k s.flows t "default" = .error e →
       processRealTimeConversation router exec k s t = (s, fallbackText)) := by
  constructor
  · intro router exec k s t f e h1 h2
    simp [processRealTimeConversation, h1, h2]
  · intro router exec k s t e h1 h2
    simp [processRealTimeConversation, h1, h2]

/-- C9 witness: a raising router (the source router's `AttributeError`)
and a raising executor both collapse to the fallback response. -/
theorem c9_downstream_exceptions_recovered_witness :
    processRealTimeConversation boomRouter (completeBooking 0) 0 c7Start
        "hello there" = ({ c7Start with flows := [] }, fallbackText) ∧
    processRealTimeConversation nullRouter (fun _ => .error "ConnectionError")
        0 c6Start "yes please" = (c6Start, fallbackText) :=
  ⟨c9_downstream_exceptions_recovered.1 boomRouter (completeBooking 0) 0
     c7Start "hello there" [] "AttributeError" rfl rfl,
   c9_downstream_exceptions_recovered.2 nullRouter
     (fun _ => .error "ConnectionError") 0 c6Start "yes please"
     "ConnectionError" (by decide) (by decide)⟩

end Butler
